import Mathlib

/-!
Verification of the Employee-Record Management System specification
against a shallow embedding of the repository's code.

The repository is an Express application: `config/app.js` wires the
middleware chain (session, passport authentication, flash messages,
routers, the 404 catch-all and the shared error handler).  The CRUD
service layer (`services/employeeService.js`), the user model
(`models/user.js`), the database configuration (`config/db.js`) and the
routers are part of the repository but their sources are not available
here; where a claim depends on them, the corresponding definition is
modelled from the specification and marked as such in its doc comment.
-/

/-! ## Record Store: data model -/

/-- The scalar field set of an employee record.  Every field is optional:
the source enforces no required-field validation, an empty submission is
accepted. -/
structure Fields where
  name : Option String
  position : Option String
  department : Option String
  salary : Option Int
deriving DecidableEq

/-- A persisted employee record: a store-generated identifier plus the
scalar fields. -/
structure EmployeeRecord where
  id : Nat
  fields : Fields
deriving DecidableEq

/-- The employee collection together with the store's identifier
generator state. -/
structure Store where
  records : List EmployeeRecord
  nextId : Nat
deriving DecidableEq

/-- Store errors of the Record Store taxonomy. -/
inductive StoreError where
  | NotFound
  | InvalidId
  | ValidationError
  | StoreUnavailable
deriving DecidableEq

/-- Well-formedness of a store: every persisted identifier is below the
generator counter, so freshly assigned identifiers never collide. -/
def Store.WF (s : Store) : Prop :=
  ∀ r ∈ s.records, r.id < s.nextId

instance (s : Store) : Decidable s.WF :=
  inferInstanceAs (Decidable (∀ r ∈ s.records, r.id < s.nextId))

/-! ## Record Store: operations

Modelled from the spec: `services/employeeService.js` is not among the
available sources; its five functions (`getAllEmployees`,
`getEmployeeById`, `createEmployee`, `updateEmployee`,
`deleteEmployee`) are modelled from the Record Store contract in the
specification (section 4.1). -/

/-- Modelled from the spec: `getAllEmployees` of the missing
`services/employeeService.js`; returns every record. -/
def getAllEmployees (s : Store) : List EmployeeRecord :=
  s.records

/-- Modelled from the spec: `getEmployeeById` of the missing
`services/employeeService.js`; fails with `NotFound` when no record has
the identifier. -/
def getEmployeeById (s : Store) (id : Nat) : Except StoreError EmployeeRecord :=
  match s.records.find? (fun r => r.id == id) with
  | some r => Except.ok r
  | none => Except.error StoreError.NotFound

/-- Modelled from the spec: `createEmployee` of the missing
`services/employeeService.js`; assigns a fresh identifier, persists, and
returns the stored record.  No required-field validation is performed. -/
def createEmployee (s : Store) (f : Fields) : EmployeeRecord × Store :=
  let r : EmployeeRecord := ⟨s.nextId, f⟩
  (r, ⟨s.records ++ [r], s.nextId + 1⟩)

/-- Merge an update onto existing fields: a field provided by the update
replaces the stored value, a field absent from the update is left
untouched. -/
def mergeFields (old upd : Fields) : Fields where
  name := match upd.name with | some v => some v | none => old.name
  position := match upd.position with | some v => some v | none => old.position
  department := match upd.department with | some v => some v | none => old.department
  salary := match upd.salary with | some v => some v | none => old.salary

/-- Modelled from the spec: `updateEmployee` of the missing
`services/employeeService.js`; merges the provided fields onto the
existing record, fails with `NotFound` when the identifier is unknown.
The identifier itself is never changed. -/
def updateEmployee (s : Store) (id : Nat) (f : Fields) :
    Except StoreError (EmployeeRecord × Store) :=
  match s.records.find? (fun r => r.id == id) with
  | none => Except.error StoreError.NotFound
  | some r =>
      Except.ok (⟨r.id, mergeFields r.fields f⟩,
        ⟨s.records.map (fun q => if q.id == id then ⟨q.id, mergeFields q.fields f⟩ else q),
         s.nextId⟩)

/-- Modelled from the spec: `deleteEmployee` of the missing
`services/employeeService.js`; removes the record, fails with `NotFound`
when the identifier is unknown. -/
def deleteEmployee (s : Store) (id : Nat) : Except StoreError Store :=
  if s.records.any (fun r => r.id == id) then
    Except.ok ⟨s.records.filter (fun r => !(r.id == id)), s.nextId⟩
  else
    Except.error StoreError.NotFound

/-- Identifier membership in the store, used to state absence. -/
def containsId (s : Store) (id : Nat) : Bool :=
  s.records.any (fun r => r.id == id)

/-! ## Claims about the Record Store -/

theorem find?_of_wf_fresh (s : Store) (h : s.WF) :
    s.records.find? (fun r => r.id == s.nextId) = none := by
  rw [List.find?_eq_none]
  intro r hr
  have := h r hr
  simp only [beq_iff_eq]
  omega

/-- C1: for every well-formed store and every field set F (including the
all-absent one, since no required-field validation is enforced),
`createEmployee` succeeds, stores exactly F, and `getEmployeeById` on the
assigned identifier returns the created record (round-trip). -/
theorem create_getById_roundtrip (s : Store) (f : Fields) (h : s.WF) :
    (createEmployee s f).1.fields = f ∧
    getEmployeeById (createEmployee s f).2 (createEmployee s f).1.id =
      Except.ok (createEmployee s f).1 := by
  refine ⟨rfl, ?_⟩
  simp only [createEmployee, getEmployeeById, List.find?_append, find?_of_wf_fresh s h]
  simp

/-- Witness for C1 at a concrete input: the empty store and the
all-absent field set. -/
theorem create_getById_roundtrip_witness :
    (createEmployee ⟨[], 0⟩ ⟨none, none, none, none⟩).1.fields =
        (⟨none, none, none, none⟩ : Fields) ∧
    getEmployeeById (createEmployee ⟨[], 0⟩ ⟨none, none, none, none⟩).2
        (createEmployee ⟨[], 0⟩ ⟨none, none, none, none⟩).1.id =
      Except.ok (createEmployee ⟨[], 0⟩ ⟨none, none, none, none⟩).1 :=
  create_getById_roundtrip ⟨[], 0⟩ ⟨none, none, none, none⟩ (by decide)

theorem deleteEmployee_ok_not_contains (t t' : Store) (id : Nat)
    (h : deleteEmployee t id = Except.ok t') : containsId t' id = false := by
  unfold deleteEmployee at h
  by_cases hc : t.records.any (fun r => r.id == id)
  · simp only [hc, if_true] at h
    cases h
    simp only [containsId, List.any_filter]
    rw [List.any_eq_false]
    intro r hr
    cases hb : r.id == id <;> simp [hb]
  · simp [hc] at h

theorem not_contains_delete_notFound (t : Store) (id : Nat)
    (h : containsId t id = false) :
    deleteEmployee t id = Except.error StoreError.NotFound := by
  unfold deleteEmployee
  simp only [containsId] at h
  simp [h]

/-- C2: for every identifier absent from the store, `getEmployeeById`,
`updateEmployee` and `deleteEmployee` each fail with `NotFound`; and a
successful delete leaves the identifier absent, so deleting the same
identifier again fails with `NotFound` rather than crashing. -/
theorem absent_id_notFound (s : Store) (id : Nat) (h : containsId s id = false) :
    getEmployeeById s id = Except.error StoreError.NotFound ∧
    (∀ f, updateEmployee s id f = Except.error StoreError.NotFound) ∧
    deleteEmployee s id = Except.error StoreError.NotFound ∧
    (∀ t t' : Store, deleteEmployee t id = Except.ok t' →
      deleteEmployee t' id = Except.error StoreError.NotFound) := by
  have hfind : s.records.find? (fun r => r.id == id) = none := by
    rw [List.find?_eq_none]
    intro r hr
    simp only [containsId, List.any_eq_false] at h
    simpa using h r hr
  refine ⟨?_, ?_, ?_, ?_⟩
  · simp [getEmployeeById, hfind]
  · intro f
    simp [updateEmployee, hfind]
  · exact not_contains_delete_notFound s id h
  · intro t t' hdel
    exact not_contains_delete_notFound t' id (deleteEmployee_ok_not_contains t t' id hdel)

/-- Witness for C2 at a concrete input: a one-record store queried at an
absent identifier, and a concrete delete-twice run. -/
theorem absent_id_notFound_witness :
    getEmployeeById ⟨[⟨0, ⟨some "Ada", none, none, none⟩⟩], 1⟩ 7 =
      Except.error StoreError.NotFound ∧
    deleteEmployee ⟨[], 1⟩ 7 = Except.error StoreError.NotFound :=
  ⟨(absent_id_notFound ⟨[⟨0, ⟨some "Ada", none, none, none⟩⟩], 1⟩ 7 (by decide)).1,
   (absent_id_notFound ⟨[], 1⟩ 7 (by decide)).2.2.1⟩

/-- C3: updating an existing record merges exactly the provided fields:
each field present in the update replaces the stored value, each field
absent from the update is left untouched, and the identifier is never
changed. -/
theorem update_frame (s : Store) (id : Nat) (f : Fields) (r : EmployeeRecord)
    (h : getEmployeeById s id = Except.ok r) :
    ∃ r' s', updateEmployee s id f = Except.ok (r', s') ∧
      r'.id = r.id ∧
      (∀ v, f.name = some v → r'.fields.name = some v) ∧
      (f.name = none → r'.fields.name = r.fields.name) ∧
      (∀ v, f.position = some v → r'.fields.position = some v) ∧
      (f.position = none → r'.fields.position = r.fields.position) ∧
      (∀ v, f.department = some v → r'.fields.department = some v) ∧
      (f.department = none → r'.fields.department = r.fields.department) ∧
      (∀ v, f.salary = some v → r'.fields.salary = some v) ∧
      (f.salary = none → r'.fields.salary = r.fields.salary) := by
  unfold getEmployeeById at h
  cases hfind : s.records.find? (fun q => q.id == id) with
  | none => rw [hfind] at h; cases h
  | some q =>
      rw [hfind] at h
      cases h
      have hupd : updateEmployee s id f =
          Except.ok (⟨r.id, mergeFields r.fields f⟩,
            ⟨s.records.map
              (fun q => if q.id == id then ⟨q.id, mergeFields q.fields f⟩ else q),
             s.nextId⟩) := by
        unfold updateEmployee
        rw [hfind]
      refine ⟨_, _, hupd, rfl, ?_, ?_, ?_, ?_, ?_, ?_, ?_, ?_⟩
      all_goals
        intro v
        simp_all [mergeFields]

/-- Witness for C3 at a concrete input: a one-record store, an update
providing only a salary. -/
theorem update_frame_witness :
    ∃ r' s', updateEmployee ⟨[⟨0, ⟨some "Ada", some "Engineer", none, some 90000⟩⟩], 1⟩ 0
        ⟨none, none, none, some 95000⟩ = Except.ok (r', s') ∧
      r'.id = 0 ∧ r'.fields.salary = some 95000 ∧ r'.fields.name = some "Ada" := by
  obtain ⟨r', s', h1, h2, _, h4, _, _, _, _, h9, _⟩ :=
    update_frame ⟨[⟨0, ⟨some "Ada", some "Engineer", none, some 90000⟩⟩], 1⟩ 0
      ⟨none, none, none, some 95000⟩ ⟨0, ⟨some "Ada", some "Engineer", none, some 90000⟩⟩
      rfl
  exact ⟨r', s', h1, h2, h9 95000 rfl, h4 rfl⟩

/-! ## Flash messages

The application installs `connect-flash` (`app.use(flash())` in
`config/app.js`); the routers that enqueue and read flash messages are
repository code that is not among the available sources. -/

/-- Modelled from the spec: the flash-message queue attached to a
session, the one-shot queue of the flash contract and of the routers
(`routes/*.js`, not among the available sources). -/
structure FlashSession where
  queue : List String
deriving DecidableEq

/-- Modelled from the spec: enqueue a flash message during the handling
of a request. -/
def flashEnqueue (s : FlashSession) (m : String) : FlashSession :=
  ⟨s.queue ++ [m]⟩

/-- Modelled from the spec: rendering a page reads every queued flash
message and clears the queue. -/
def flashRead (s : FlashSession) : List String × FlashSession :=
  (s.queue, ⟨[]⟩)

/-- C4: a flash message enqueued during request N and not already queued
is shown exactly once by the rendering of request N+1, which leaves the
queue empty; and a rendering whose session does not hold the message
never shows it, so the message is absent from every page after the one
that consumed it. -/
theorem flash_one_shot (s : FlashSession) (m : String) (h : m ∉ s.queue) :
    (flashRead (flashEnqueue s m)).1.count m = 1 ∧
    (flashRead (flashEnqueue s m)).2.queue = [] ∧
    (∀ t : FlashSession, m ∉ t.queue → m ∉ (flashRead t).1) := by
  refine ⟨?_, rfl, ?_⟩
  · simp [flashRead, flashEnqueue, List.count_append, List.count_eq_zero.mpr h]
  · intro t ht
    simpa [flashRead] using ht

/-- Witness for C4 at a concrete input: an empty flash queue receiving
one message. -/
theorem flash_one_shot_witness :
    (flashRead (flashEnqueue ⟨[]⟩ "record created")).1.count "record created" = 1 ∧
    (flashRead (flashEnqueue ⟨[]⟩ "record created")).2.queue = [] :=
  ⟨(flash_one_shot ⟨[]⟩ "record created" (by simp)).1,
   (flash_one_shot ⟨[]⟩ "record created" (by simp)).2.1⟩

/-! ## Identity Store and login

`config/app.js` installs `passport.use(User.createStrategy())`; the user
model (`models/user.js`) is repository code not among the available
sources. -/

/-- A stored user account: a username and a salted password hash. -/
structure UserAccount where
  username : String
  passwordHash : String
deriving DecidableEq

/-- The user collection. -/
structure IdentityStore where
  users : List UserAccount
deriving DecidableEq

/-- Outcome of a login attempt: a session bound to the account, or an
authentication failure carrying the user-visible message. -/
inductive LoginResult where
  | session (account : UserAccount)
  | authFailure (message : String)
deriving DecidableEq

/-- The single user-visible message of every authentication failure. -/
def authFailureMessage : String := "Password or username is incorrect"

/-- Modelled from the spec: the local credential-verification strategy
installed by `User.createStrategy()` (user model not among the available
sources).  The password hash is abstracted as a function of the
submitted password. -/
def login (st : IdentityStore) (hash : String → String)
    (username password : String) : LoginResult :=
  match st.users.find? (fun u => u.username == username) with
  | none => LoginResult.authFailure authFailureMessage
  | some u =>
      if u.passwordHash == hash password then LoginResult.session u
      else LoginResult.authFailure authFailureMessage

/-- C5: a login attempt with an unknown username fails, a login attempt
with a known username but mismatched password fails, and both failures
carry the identical user-visible message (the same constant
`authFailureMessage`), so response content does not enumerate
usernames. -/
theorem login_no_enumeration (st : IdentityStore) (hash : String → String)
    (username password : String) :
    (st.users.find? (fun u => u.username == username) = none →
      login st hash username password = LoginResult.authFailure authFailureMessage) ∧
    (∀ u, st.users.find? (fun u => u.username == username) = some u →
      u.passwordHash ≠ hash password →
      login st hash username password = LoginResult.authFailure authFailureMessage) := by
  constructor
  · intro h
    simp [login, h]
  · intro u hu hne
    simp [login, hu, hne]

/-- Witness for C5 at a concrete input: a one-account store, one unknown
username and one wrong password, yielding the same failure message. -/
theorem login_no_enumeration_witness :
    login ⟨[⟨"admin", "h-secret"⟩]⟩ (fun p => String.append "h-" p) "nobody" "secret" =
      LoginResult.authFailure authFailureMessage ∧
    login ⟨[⟨"admin", "h-secret"⟩]⟩ (fun p => String.append "h-" p) "admin" "wrong" =
      LoginResult.authFailure authFailureMessage :=
  ⟨(login_no_enumeration ⟨[⟨"admin", "h-secret"⟩]⟩ (fun p => String.append "h-" p)
      "nobody" "secret").1 (by decide),
   (login_no_enumeration ⟨[⟨"admin", "h-secret"⟩]⟩ (fun p => String.append "h-" p)
      "admin" "wrong").2 ⟨"admin", "h-secret"⟩ (by decide) (by decide)⟩

/-! ## Shared error handler

Embedded from `config/app.js` lines 73-81: the handler sets
`res.locals.message = err.message`, sets `res.locals.error` to the full
error object when `req.app.get('env') === 'development'` and to an empty
object otherwise, sets the status to `err.status || 500`, and renders
the `error` view. -/

/-- An error forwarded to the shared handler: an optional HTTP status (a
plain thrown error has none), the message, and the remaining failure
detail (stack and similar non-message content of the error object). -/
structure HttpError where
  status : Option Nat
  message : String
  detail : String
deriving DecidableEq

/-- What `res.locals.error` holds: the full error object or the empty
object. -/
inductive ErrorLocal where
  | full (e : HttpError)
  | empty
deriving DecidableEq

/-- The response produced by the shared error handler: HTTP status, the
view that was rendered, and the two locals handed to it. -/
structure ErrorResponse where
  status : Nat
  view : String
  message : String
  error : ErrorLocal
deriving DecidableEq

/-- The shared error handler of `config/app.js`: message always shown,
full error object only when the environment is `development`, status
`err.status || 500`, rendered through the single `error` view. -/
def errorHandler (env : String) (err : HttpError) : ErrorResponse where
  status := err.status.getD 500
  view := "error"
  message := err.message
  error := if env == "development" then ErrorLocal.full err else ErrorLocal.empty

/-- Whether a response exposes failure detail beyond the message. -/
def detailShown (resp : ErrorResponse) : Bool :=
  match resp.error with
  | ErrorLocal.full _ => true
  | ErrorLocal.empty => false

/-- Non-production configuration, following the claim's words: any
environment other than `production`. -/
def envNonProduction (env : String) : Bool :=
  !(env == "production")

/-- C6 counterexample: in the non-production environment `test` the
handler still withholds the failure detail, so detail is not included
in every non-production configuration: the claimed equivalence between
detail inclusion and non-production fails. -/
theorem error_detail_not_iff_nonproduction :
    envNonProduction "test" = true ∧
    detailShown (errorHandler "test" ⟨some 500, "boom", "stack"⟩) = false := by
  constructor <;> rfl

/-- C6 amended: every failure is rendered through the single shared
`error` view, the response always shows the failure message, and the
failure detail beyond the message is included if and only if the
environment is exactly `development`; in particular the production
configuration never exposes it. -/
theorem error_view_detail_development (env : String) (err : HttpError) :
    (errorHandler env err).view = "error" ∧
    (errorHandler env err).message = err.message ∧
    (detailShown (errorHandler env err) = true ↔ env = "development") ∧
    (env = "production" → detailShown (errorHandler env err) = false) := by
  refine ⟨rfl, rfl, ?_, ?_⟩
  · unfold errorHandler detailShown
    cases h : env == "development" <;> simp_all
  · intro h
    subst h
    rfl

/-- Witness for C6 at a concrete input: the production environment hides
the detail of a concrete error. -/
theorem error_view_detail_development_witness :
    detailShown (errorHandler "production" ⟨some 404, "Not Found", "stack"⟩) = false :=
  (error_view_detail_development "production" ⟨some 404, "Not Found", "stack"⟩).2.2.2 rfl

/-! ## Startup configuration

`config/app.js` loads the environment (`require('dotenv').config()`)
and connects with `mongoose.connect(DB.URI)`; `config/db.js`, which
reads the connection string from the environment, is repository code
not among the available sources. -/

/-- Outcome of process startup. -/
inductive StartupResult where
  | fatal
  | running (uri : String)
deriving DecidableEq

/-- The single required environment key for the persistence connection
string. -/
def requiredConfigKey : String := "MONGODB_URI"

/-- Modelled from the spec: the startup of `config/db.js` and
`config/app.js` (the former not among the available sources): the
process reads the one required configuration input, the persistence
connection string, and fails fatally at startup when it is absent. -/
def startup (env : String → Option String) : StartupResult :=
  match env requiredConfigKey with
  | none => StartupResult.fatal
  | some uri => StartupResult.running uri

/-- C7: startup consults only the persistence connection string: when it
is absent the process fails fatally at startup, and when it is present
startup succeeds whatever the rest of the environment holds (that key is
the only required configuration input). -/
theorem startup_requires_connection_string (env : String → Option String) :
    (env requiredConfigKey = none → startup env = StartupResult.fatal) ∧
    (∀ uri, env requiredConfigKey = some uri →
      startup env = StartupResult.running uri) := by
  constructor
  · intro h
    simp [startup, h]
  · intro uri h
    simp [startup, h]

/-- Witness for C7 at a concrete input: the empty environment is fatal,
an environment holding only the connection string runs. -/
theorem startup_requires_connection_string_witness :
    startup (fun _ => none) = StartupResult.fatal ∧
    startup (fun k => if k == requiredConfigKey then some "mongodb-uri" else none) =
      StartupResult.running "mongodb-uri" :=
  ⟨(startup_requires_connection_string (fun _ => none)).1 rfl,
   (startup_requires_connection_string
      (fun k => if k == requiredConfigKey then some "mongodb-uri" else none)).2
      "mongodb-uri" (by simp)⟩

/-! ## Session serialization of the authenticated account

`config/app.js` installs `passport.serializeUser(User.serializeUser())`
and `passport.deserializeUser(User.deserializeUser())`; the user model
supplying the two functions is repository code not among the available
sources. -/

/-- A full user account as stored in the identity collection, with an
identifier and mutable profile fields. -/
structure Account where
  id : Nat
  username : String
  profile : String
deriving DecidableEq

/-- Modelled from the spec: `User.serializeUser()` (user model not among
the available sources) stores only the account identifier in the
session. -/
def serializeUser (a : Account) : Nat :=
  a.id

/-- Modelled from the spec: `User.deserializeUser()` (user model not
among the available sources) reconstructs the full account by a fresh
lookup of the stored identifier in the current identity collection. -/
def deserializeUser (st : List Account) (id : Nat) : Option Account :=
  st.find? (fun a => a.id == id)

/-- C8: the session holds only the account identifier
(`serializeUser a = a.id`), and deserializing against the current
collection returns whatever account that collection now holds under the
identifier — the current stored account, not a copy cached at
serialization time. -/
theorem serialize_deserialize_current (st : List Account) (a b : Account)
    (h : st.find? (fun x => x.id == a.id) = some b) :
    serializeUser a = a.id ∧
    deserializeUser st (serializeUser a) = some b := by
  exact ⟨rfl, h⟩

/-- Witness for C8 at a concrete input: the account was serialized
before its profile changed; deserialization returns the updated stored
account, not the stale copy. -/
theorem serialize_deserialize_current_witness :
    serializeUser ⟨1, "admin", "old-profile"⟩ = 1 ∧
    deserializeUser [⟨1, "admin", "new-profile"⟩]
      (serializeUser ⟨1, "admin", "old-profile"⟩) =
      some ⟨1, "admin", "new-profile"⟩ :=
  serialize_deserialize_current [⟨1, "admin", "new-profile"⟩]
    ⟨1, "admin", "old-profile"⟩ ⟨1, "admin", "new-profile"⟩ (by decide)

/-! ## Session middleware configuration

Embedded from `config/app.js` lines 36-40: the application installs
`express-session` with `secret: "SomeSecret"`, `saveUninitialized:
false` and `resave: false`.  Per the express-session contract, at the
end of a request a brand-new session is stored only when it was
modified or `saveUninitialized` is set, and an existing session is
rewritten only when it was modified or `resave` is set. -/

/-- The options passed to `session(...)` in `config/app.js`. -/
structure SessionOptions where
  secret : String
  saveUninitialized : Bool
  resave : Bool
deriving DecidableEq

/-- The concrete options of `config/app.js`. -/
def appSessionOptions : SessionOptions :=
  ⟨"SomeSecret", false, false⟩

/-- Whether the session middleware stores the session at the end of a
request, per the express-session contract: a new session is stored iff
modified or `saveUninitialized`; an existing one is rewritten iff
modified or `resave`. -/
def sessionStored (opts : SessionOptions) (isNew modified : Bool) : Bool :=
  if isNew then modified || opts.saveUninitialized
  else modified || opts.resave

/-- Modelled from the spec: server-side invalidation of a session token
on logout or expiry (`routes/users.js` not among the available
sources) removes the token from the session store. -/
def invalidateSession (store : List Nat) (token : Nat) : List Nat :=
  store.filter (fun t => !(t == token))

/-- C9 counterexample: with the application's options
(`saveUninitialized: false`), the first contact of a previously unseen
client whose request performs no session-modifying action stores no
server-side session, contradicting the claim that a session is created
on first contact before any login. -/
theorem session_not_stored_on_first_contact :
    sessionStored appSessionOptions true false = false := by
  rfl

/-- C9 amended: with the application's options a new client's session is
stored exactly when the request modified it (for instance by a login),
never merely on first contact; and invalidating a token removes it from
the session store. -/
theorem session_stored_iff_modified (modified : Bool) (store : List Nat) (token : Nat) :
    sessionStored appSessionOptions true modified = modified ∧
    token ∉ invalidateSession store token := by
  constructor
  · cases modified <;> rfl
  · simp [invalidateSession]

/-! ## 404 catch-all and dispatch

Embedded from `config/app.js` lines 68-70: after all routers, a
catch-all middleware forwards `createError(404)` to the shared error
handler. -/

/-- An inbound HTTP request: verb and path. -/
structure Request where
  verb : String
  path : String
deriving DecidableEq

/-- The rendered outcome of a request: HTTP status and the view that
produced the body. -/
structure Rendered where
  status : Nat
  view : String
deriving DecidableEq

/-- The error created by `createError(404)` in the catch-all of
`config/app.js`: status 404, message `Not Found`, no further detail. -/
def createError404 : HttpError :=
  ⟨some 404, "Not Found", ""⟩

/-- Project the shared error handler's response onto the rendered
outcome. -/
def renderOfError (e : ErrorResponse) : Rendered :=
  ⟨e.status, e.view⟩

/-- The application's dispatch of `config/app.js`: a request matched by
some registered route is answered by that route's handler; otherwise
the catch-all forwards a 404 error to the shared error handler. -/
def appRespond (routeTable : Request → Option Rendered) (env : String)
    (req : Request) : Rendered :=
  match routeTable req with
  | some r => r
  | none => renderOfError (errorHandler env createError404)

/-- C10: a request matching no registered route is answered by the
rendered `error` view with status 404; and the shared error handler uses
the error's own status when present and 500 otherwise. -/
theorem unmatched_request_404 (routeTable : Request → Option Rendered)
    (env : String) (req : Request) (h : routeTable req = none) :
    appRespond routeTable env req = ⟨404, "error"⟩ ∧
    (∀ m d, (errorHandler env ⟨none, m, d⟩).status = 500) ∧
    (∀ n m d, (errorHandler env ⟨some n, m, d⟩).status = n) := by
  refine ⟨?_, fun m d => rfl, fun n m d => rfl⟩
  simp [appRespond, h, renderOfError, errorHandler, createError404]

/-- Witness for C10 at a concrete input: an empty route table and a
concrete unmatched request. -/
theorem unmatched_request_404_witness :
    appRespond (fun _ => none) "production" ⟨"GET", "/nowhere"⟩ = ⟨404, "error"⟩ :=
  (unmatched_request_404 (fun _ => none) "production" ⟨"GET", "/nowhere"⟩ rfl).1
